import Mathlib

/-!
Verification development for the conversational intent engine of a TODO
chatbot backend.  The Python sources embedded here are:

* `src/services/intent_classifier.py`  — `IntentClassifier`
* `src/ai_agent/context_manager.py`    — `ContextManager`
* `src/utils/date_parser.py`           — `DateParser`
* `src/utils/fuzzy_matcher.py`         — `FuzzyMatcher`

The classifier drives its decisions through Python `re` patterns; we embed a
small executable regular-expression engine (character classes, alternation,
star with greedy and lazy preference order, word boundaries `\b`, negative
lookahead `(?!...)` and the end anchor `$`) and transcribe every pattern of
the source verbatim into that engine.  External collaborators (the
`dateparser` library, the OpenAI oracle, `rapidfuzz.fuzz.partial_ratio`,
and the conversation persistence service) are modelled as explicit
parameters, exactly at the call boundary the source uses them.
-/

namespace Todo

/-! ### Character classes (Python `re` semantics, ASCII) -/

/-- Python `\w` (ASCII): letters, digits, underscore. -/
def isWordChar (c : Char) : Bool := c.isAlpha || c.isDigit || c = '_'

/-- Python `\s` (the whitespace actually occurring in chat input). -/
def isSpaceChar (c : Char) : Bool := c = ' ' || c = '\t' || c = '\n' || c = '\r'

/-! ### A tiny regular-expression engine

`RE` is the abstract syntax; `reMatch` returns the list of positions a match
starting at the given position can end at, in Python backtracking preference
order (alternatives left to right, `*`/`+` greedy, `*?`/`+?` lazy).
A `Pos` keeps the previous character so that `\b` can be decided locally. -/

inductive RE where
  | eps                       -- empty pattern
  | cls (p : Char → Bool)     -- single character matching `p`
  | cat (r1 r2 : RE)          -- concatenation
  | alt (r1 r2 : RE)          -- alternation, left preferred
  | star (r : RE)             -- greedy `*`
  | starL (r : RE)            -- lazy `*?`
  | wordB                     -- `\b`
  | nla (r : RE)              -- negative lookahead `(?!r)`
  | eos                       -- `$`

structure Pos where
  prev : Option Char
  rest : List Char

/-- Is the position at a `\b` word boundary? -/
def atBoundary (pos : Pos) : Bool :=
  let pw := match pos.prev with | none => false | some c => isWordChar c
  let nw := match pos.rest with | [] => false | c :: _ => isWordChar c
  pw != nw

/-- Structural size of a pattern, used to bound the matcher's recursion. -/
def reSize : RE → Nat
  | .eps => 1
  | .cls _ => 1
  | .cat r1 r2 => reSize r1 + reSize r2 + 1
  | .alt r1 r2 => reSize r1 + reSize r2 + 1
  | .star r => reSize r + 1
  | .starL r => reSize r + 1
  | .wordB => 1
  | .nla r => reSize r + 1
  | .eos => 1

/-- All end positions of a match of `r` starting at `pos`, preference first,
with explicit recursion fuel.  Every recursive call strictly decreases the
lexicographic measure (remaining input length, pattern size) — a `star`
iteration only continues on remainders that consumed at least one character —
so fuel `(length + 2) * (reSize r + 1)` (see `reMatch`) can never run out. -/
def reMatchF : Nat → RE → Pos → List Pos
  | 0, _, _ => []
  | fuel+1, r, pos =>
    match r with
    | .eps => [pos]
    | .cls p =>
      match pos.rest with
      | [] => []
      | c :: cs => if p c then [⟨some c, cs⟩] else []
    | .cat r1 r2 => (reMatchF fuel r1 pos).flatMap (reMatchF fuel r2)
    | .alt r1 r2 => reMatchF fuel r1 pos ++ reMatchF fuel r2 pos
    | .star r1 =>
      (((reMatchF fuel r1 pos).filter (fun q => q.rest.length < pos.rest.length)).flatMap
        (reMatchF fuel (.star r1))) ++ [pos]
    | .starL r1 =>
      pos :: (((reMatchF fuel r1 pos).filter
        (fun q => q.rest.length < pos.rest.length)).flatMap (reMatchF fuel (.starL r1)))
    | .wordB => if atBoundary pos then [pos] else []
    | .nla r1 => if (reMatchF fuel r1 pos).isEmpty then [pos] else []
    | .eos => if pos.rest.isEmpty then [pos] else []

/-- All end positions of a match of `r` starting at `pos`, in Python
backtracking preference order. -/
def reMatch (r : RE) (pos : Pos) : List Pos :=
  reMatchF ((pos.rest.length + 2) * (reSize r + 1)) r pos

/-- All start positions of `s`, left to right (with the previous character). -/
def positionsAux (prev : Option Char) : List Char → List Pos
  | [] => [⟨prev, []⟩]
  | c :: cs => ⟨prev, c :: cs⟩ :: positionsAux (some c) cs

def positions (s : List Char) : List Pos := positionsAux none s

/-- Python `re.search(r, s)` as a boolean. -/
def reSearch (r : RE) (s : String) : Bool :=
  (positions s.toList).any (fun pos => !(reMatch r pos).isEmpty)

/-- Python `re.match(r, s)` (anchored at the start) as a boolean. -/
def reMatchStart (r : RE) (s : String) : Bool :=
  !(reMatch r ⟨none, s.toList⟩).isEmpty

/-- The capture of a `pre(body)post` pattern at one start position:
the first (in backtracking preference order) way of matching `pre`, then
`body`, such that `post` matches afterwards; the capture is the substring
consumed by `body`. -/
def capAt (pre body post : RE) (pos : Pos) : Option (List Char) :=
  ((reMatch pre pos).flatMap (fun p1 =>
     (reMatch body p1).filterMap (fun p2 =>
       if (reMatch post p2).isEmpty then none
       else some (p1.rest.take (p1.rest.length - p2.rest.length))))).head?

/-- Python `re.search` with one capture group, pattern split as
`pre (body) post`; leftmost start position wins. -/
def reSearchCapture (pre body post : RE) (s : String) : Option String :=
  ((positions s.toList).filterMap (capAt pre body post)).map String.mk |>.head?

/-- One step of Python `re.sub(r, '', s)`: delete every non-overlapping
match, scanning left to right, taking the preferred match at each position. -/
def reSubAux (r : RE) : Nat → Pos → List Char
  | 0, pos => pos.rest
  | fuel+1, pos =>
    match (reMatch r pos).head? with
    | some p' =>
      if p'.rest.length < pos.rest.length then reSubAux r fuel p'
      else
        match pos.rest with
        | [] => []
        | c :: cs => c :: reSubAux r fuel ⟨some c, cs⟩
    | none =>
      match pos.rest with
      | [] => []
      | c :: cs => c :: reSubAux r fuel ⟨some c, cs⟩

/-- Python `re.sub(r, '', s)`. -/
def reSubAll (r : RE) (s : String) : String :=
  String.mk (reSubAux r (s.toList.length + 1) ⟨none, s.toList⟩)

/-! ### Pattern construction helpers -/

/-- A literal character, case-insensitively (all source patterns are either
applied to lowercased text or compiled with `re.IGNORECASE`). -/
def lch (c : Char) : RE := .cls (fun x => x.toLower = c)

/-- A literal string. -/
def rstr (s : String) : RE := s.data.foldr (fun c r => .cat (lch c) r) .eps

def rcat (l : List RE) : RE := l.foldr .cat .eps

def ralt : List RE → RE
  | [] => .nla .eps          -- unused: matches nothing
  | [r] => r
  | r :: rs => .alt r (ralt rs)

/-- Alternation of literal words. -/
def rwords (l : List String) : RE := ralt (l.map rstr)

def rsp : RE := .cls isSpaceChar
/-- `\s+` -/
def rsps : RE := .cat rsp (.star rsp)
/-- `\s*` -/
def rspStar : RE := .star rsp
/-- `r?` (greedy option) -/
def ropt (r : RE) : RE := .alt r .eps
def rdigit : RE := .cls Char.isDigit
/-- `\d+` -/
def rdigits : RE := .cat rdigit (.star rdigit)
def rwchar : RE := .cls isWordChar
/-- `\w+` -/
def rword : RE := .cat rwchar (.star rwchar)
/-- `.` -/
def rdot : RE := .cls (fun c => c != '\n')
/-- `.+` (greedy) -/
def rdotPlus : RE := .cat rdot (.star rdot)
/-- `.+?` (lazy) -/
def rdotPlusL : RE := .cat rdot (.starL rdot)

/-- "k is a substring of s" — Python's `k in s`. -/
def strContainsAux (k : List Char) : List Char → Bool
  | [] => k.isPrefixOf []
  | c :: cs => k.isPrefixOf (c :: cs) || strContainsAux k cs

def strContains (s k : String) : Bool := strContainsAux k.toList s.toList

/-- Python `str.strip()`. -/
def pyStrip (s : String) : String :=
  String.mk (((s.toList.dropWhile isSpaceChar).reverse.dropWhile isSpaceChar).reverse)

/-- Python `str.lower()`. -/
def pyLower (s : String) : String := String.mk (s.toList.map Char.toLower)

/-- `not s` on a Python string (empty = falsy). -/
def strIsEmpty (s : String) : Bool := s.toList.isEmpty

/-- `len(s)` -/
def strLen (s : String) : Nat := s.toList.length

/-- `int(...)` applied to a string of decimal digits. -/
def digitsToNat (l : List Char) : Nat :=
  l.foldl (fun n c => 10 * n + (c.toNat - '0'.toNat)) 0

def pyWordsAux (acc : List Char) : List Char → List (List Char)
  | [] => if acc.isEmpty then [] else [acc.reverse]
  | c :: cs =>
    if isSpaceChar c then
      if acc.isEmpty then pyWordsAux [] cs else acc.reverse :: pyWordsAux [] cs
    else pyWordsAux (c :: acc) cs

/-- Python `str.split()` on whitespace, dropping empty fields. -/
def pyWords (s : String) : List String := (pyWordsAux [] s.toList).map String.mk

/-- `r+` (greedy) -/
def rplus (r : RE) : RE := .cat r (.star r)

/-! ### `IntentClassifier` (src/services/intent_classifier.py) -/

/-- The `Intent` enumeration. -/
inductive Intent where
  | ADD_TASK | UPDATE_TASK | DELETE_TASK | COMPLETE_TASK | LIST_TASKS
  | CANCEL_OPERATION | PROVIDE_INFORMATION | UNKNOWN
deriving DecidableEq, Repr

/-- A value of an extracted-entities mapping (`Dict[str, Any]`). -/
inductive EVal where
  | i (n : Int) | s (v : String) | b (v : Bool)
deriving DecidableEq, Repr

/-- An insertion-ordered string-keyed mapping, as a Python `dict`. -/
abbrev Entities := List (String × EVal)

def eget (es : Entities) (k : String) : Option EVal :=
  (es.find? (fun kv => kv.1 = k)).map (·.2)

/-- `d[k] = v` on an insertion-ordered dict. -/
def eset (es : Entities) (k : String) (v : EVal) : Entities :=
  if (es.find? (fun kv => kv.1 = k)).isSome then
    es.map (fun kv => if kv.1 = k then (k, v) else kv)
  else es ++ [(k, v)]

/-- Python truthiness of `d.get(k)`. -/
def etruthy : Option EVal → Bool
  | some (.b b) => b
  | some (.i n) => n != 0
  | some (.s v) => !v.isEmpty
  | none => false

/-- `IntentResult` dataclass. -/
structure IntentResult where
  intent_type : Intent
  confidence : ℚ
  extracted_entities : Entities
deriving DecidableEq, Repr

/-- `ADD_PATTERNS` -/
def ADD_PATTERNS : List RE := [
  rcat [.wordB, rwords ["add", "create", "new", "make"], rsps, ropt (rcat [rstr "a", rsps]),
        ralt [rstr "task", rcat [rstr "urgent", rsps, rstr "task"]], .wordB],
  rcat [.wordB, rwords ["add", "create"], rsps,
        ralt [rstr "urgent", rcat [rstr "high", rsps, rstr "priority"], rstr "important"],
        rsps, rstr "task", .wordB],
  rcat [.wordB, rwords ["add", "create", "new"], rsps, rwords ["high", "medium", "low", "normal"],
        rsps, ropt (rcat [rstr "priority", rsps]), rstr "task", .wordB],
  rcat [.wordB, rwords ["add", "create"], rsps,
        rplus (.cls (fun c => isWordChar c || isSpaceChar c)), rstr "task", .wordB],
  rcat [.wordB, rwords ["want", "need", "have"], rsps, rstr "to", .wordB],
  rcat [.wordB, rwords ["remind", "remember"], rsps, rstr "me", rsps, rstr "to", .wordB]]

/-- `DELETE_PATTERNS` -/
def DELETE_PATTERNS : List RE := [
  rcat [.wordB, rwords ["delete", "remove", "erase"], rsps, ropt (rcat [rstr "the", rsps]),
        rstr "task", rsps, rdigits, .wordB],
  rcat [.wordB, rwords ["delete", "remove", "erase"], rsps, ropt (rcat [rstr "the", rsps]),
        rstr "task", .wordB],
  rcat [.wordB, rstr "cancel", rsps, rstr "task", rsps, rdigits, .wordB],
  rcat [.wordB, rwords ["delete", "remove"], rsps, rstr "the", rsps, rword, rsps,
        rstr "task", .wordB]]

/-- `UPDATE_PATTERNS` -/
def UPDATE_PATTERNS : List RE := [
  rcat [.wordB, rwords ["update", "change", "modify", "edit"], rsps,
        ropt (rcat [rstr "the", rsps]), rstr "task", .wordB],
  rcat [.wordB, rwords ["update", "change"], rsps, rstr "task", rsps, rdigits, .wordB],
  rcat [.wordB, rwords ["change", "update"], rsps, rstr "the", rsps, rword, rsps,
        rstr "task", .wordB],
  rcat [.wordB, rwords ["make", "set"], rsps, rstr "it", rsps, ropt (rcat [rstr "to", rsps]),
        rwords ["high", "medium", "low"], rsps, rstr "priority", .wordB]]

/-- `COMPLETE_PATTERNS` -/
def COMPLETE_PATTERNS : List RE := [
  rcat [.wordB, rwords ["mark", "set"], rsps, ropt (rcat [rstr "task", rsps]), ropt rdigits,
        rspStar, rstr "as", rsps, rwords ["complete", "done", "finished"], .wordB],
  rcat [.wordB, rwords ["complete", "finish"], rsps, rstr "task", rsps, rdigits, .wordB],
  rcat [.wordB, rcat [rstr "done", rsps, rstr "with"], rsps, rstr "task", rsps, rdigits, .wordB],
  rcat [.wordB, ropt (rcat [rstr "i", rsps]), rwords ["finished", "completed", "done"], rsps,
        rword, .nla (rcat [rsps, rstr "tasks"])],
  rcat [.wordB, rstr "task", rsps, rdigits, rsps, rstr "is", rsps,
        rwords ["done", "complete", "finished"], .wordB]]

/-- `LIST_PATTERNS` -/
def LIST_PATTERNS : List RE := [
  rcat [.wordB, rwords ["show", "list", "display", "view", "get"], rsps,
        ropt (rwords ["my", "all", "the"]), rspStar,
        ropt (rwords ["pending", "completed", "active"]), rspStar,
        rstr "task", ropt (rstr "s"), .wordB],
  rcat [.wordB, rwords ["show", "list", "display"], rsps, ropt (rcat [rstr "all", rsps]),
        rstr "my", rsps, rstr "task", ropt (rstr "s"), .wordB],
  rcat [.wordB, rstr "what", rsps, ropt (rcat [rstr "are", rsps]), rstr "my", rsps,
        rstr "tasks", .wordB],
  rcat [.wordB, rwords ["show", "list", "view"], rsps, rwords ["pending", "completed", "all"],
        rsps, rstr "tasks", .wordB]]

/-- `CANCEL_PATTERNS` -/
def CANCEL_PATTERNS : List RE := [
  rcat [.wordB, ralt [rcat [rstr "never", rsps, rstr "mind"], rstr "nevermind"], .wordB],
  rcat [.wordB, rwords ["cancel", "stop", "abort"],
        .nla (rcat [rsps, rstr "task", rsps, rdigit]), .wordB],
  rcat [.wordB, ralt [rcat [rstr "forget", rsps, rstr "it"],
        rcat [rstr "don", lch '\'', rstr "t", rsps, rstr "bother"]], .wordB]]

/-- `^(yes|yeah|yep|yup|sure|ok|okay|confirm)$` -/
def YES_RE : RE := rcat [rwords ["yes", "yeah", "yep", "yup", "sure", "ok", "okay", "confirm"], .eos]

/-- `^(no|nope|nah|don't)$` -/
def NO_RE : RE := rcat [ralt [rstr "no", rstr "nope", rstr "nah",
  rcat [rstr "don", lch '\'', rstr "t"]], .eos]

/-- `_matches_patterns` -/
def matchesPatterns (message : String) (patterns : List RE) : Bool :=
  patterns.any (fun p => reSearch p message)

/-- `_matches_any_command_pattern` -/
def matchesAnyCommandPattern (message : String) : Bool :=
  matchesPatterns message
    (ADD_PATTERNS ++ DELETE_PATTERNS ++ UPDATE_PATTERNS ++ COMPLETE_PATTERNS ++
     LIST_PATTERNS ++ CANCEL_PATTERNS)

/-- `_extract_priority` -/
def extractPriority (message : String) : Option String :=
  if reSearch (rcat [.wordB, rwords ["high", "urgent", "important"], .wordB]) message then
    some "high"
  else if reSearch (rcat [.wordB, rwords ["medium", "normal"], .wordB]) message then
    some "medium"
  else if reSearch (rcat [.wordB, rstr "low", .wordB]) message then
    some "low"
  else none

/-- `\btask\s+(\d+)\b` → int -/
def extractTaskIdNum (message : String) : Option Int :=
  match reSearchCapture (rcat [.wordB, rstr "task", rsps]) rdigits .wordB message with
  | some d => some (Int.ofNat (digitsToNat d.toList))
  | none => none

/-- `_extract_delete_entities` -/
def extractDeleteEntities (message : String) : Entities :=
  let es : Entities := []
  let es :=
    match extractTaskIdNum message with
    | some n => eset es "task_id" (.i n)
    | none =>
      match reSearchCapture (rcat [.wordB, rwords ["delete", "remove"], rsps, rstr "task", rsps])
          rdigits .wordB message with
      | some d => eset es "task_id" (.i (Int.ofNat (digitsToNat d.toList)))
      | none => es
  match reSearchCapture (rcat [.wordB, rwords ["delete", "remove"], rsps, rstr "the", rsps])
      rword (rcat [rsps, rstr "task", .wordB]) message with
  | some nm => eset es "task_name" (.s nm)
  | none => es

/-- `_extract_update_entities` -/
def extractUpdateEntities (message : String) : Entities :=
  let es : Entities := []
  let es :=
    match extractTaskIdNum message with
    | some n => eset es "task_id" (.i n)
    | none => es
  let es :=
    match reSearchCapture (rcat [.wordB, rwords ["update", "change"], rsps, rstr "the", rsps])
        rword (rcat [rsps, rstr "task", .wordB]) message with
    | some nm => eset es "task_name" (.s nm)
    | none => es
  match extractPriority message with
  | some p => eset es "priority" (.s p)
  | none => es

/-- `_extract_complete_entities` -/
def extractCompleteEntities (message : String) : Entities :=
  let es : Entities := []
  let es :=
    match extractTaskIdNum message with
    | some n => eset es "task_id" (.i n)
    | none => es
  match reSearchCapture (rcat [.wordB, rwords ["finished", "completed", "done"], rsps])
      rdotPlus .eos message with
  | some tail =>
    let task_name := reSubAll (rcat [rsps, ropt (rstr "task"), .eos]) (pyStrip tail)
    if !(strIsEmpty task_name) then eset es "task_name" (.s task_name) else es
  | none => es

/-- `_extract_list_entities` -/
def extractListEntities (message : String) : Entities :=
  if reSearch (rcat [.wordB, rstr "pending", .wordB]) message then [("status", .s "pending")]
  else if reSearch (rcat [.wordB, rstr "completed", .wordB]) message then [("status", .s "completed")]
  else if reSearch (rcat [.wordB, rstr "all", .wordB]) message then [("status", .s "all")]
  else []

/-- `_extract_add_entities` (the `re.sub` chain is applied to the original,
case-insensitively, as in the source). -/
def extractAddEntities (original message_lower : String) : Entities :=
  let es : Entities := []
  let es :=
    match extractPriority message_lower with
    | some p => eset es "priority" (.s p)
    | none => es
  let title := original
  let title := reSubAll (rcat [.wordB, rwords ["add", "create", "new", "make"], rsps,
    ropt (rcat [rstr "a", rsps]), rstr "task", rsps, ropt (rcat [rstr "to", rsps])]) title
  let title := reSubAll (rcat [.wordB, rwords ["want", "need", "have"], rsps,
    rstr "to", rsps]) title
  let title := reSubAll (rcat [.wordB, rwords ["remind", "remember"], rsps, rstr "me", rsps,
    rstr "to", rsps]) title
  let title := reSubAll (rcat [.wordB, rwords ["urgent", "high", "medium", "low"], rsps,
    ropt (rstr "priority"), rspStar]) title
  let title := pyStrip title
  if !(strIsEmpty title) then eset es "title" (.s title) else es

/-- `_classify_as_information` -/
def classifyAsInformation (message_lower : String) (current_intent : String) :
    Option IntentResult :=
  if reMatchStart YES_RE message_lower then
    some ⟨.PROVIDE_INFORMATION, 95/100, [("confirmation", .b true)]⟩
  else if reMatchStart NO_RE message_lower then
    some ⟨.PROVIDE_INFORMATION, 95/100, [("confirmation", .b false)]⟩
  else if current_intent = "ADDING_TASK" then
    let priority := extractPriority message_lower
    let entities : Entities :=
      match priority with
      | some p => [("priority", .s p)]
      | none => []
    let entities :=
      if (pyWords message_lower).length ≤ 5 && !matchesAnyCommandPattern message_lower then
        eset entities "title" (.s message_lower)
      else entities
    if reSearch (rcat [.wordB, rwords ["make", "set"], rsps, rstr "it", .wordB])
        message_lower then
      let entities :=
        match priority with
        | some p => eset entities "priority" (.s p)
        | none => entities
      some ⟨.PROVIDE_INFORMATION, 9/10, entities⟩
    else if !entities.isEmpty then
      some ⟨.PROVIDE_INFORMATION, 85/100, entities⟩
    else none
  else if current_intent ∈ ["UPDATING_TASK", "DELETING_TASK", "COMPLETING_TASK"] then
    match extractPriority message_lower with
    | some p => some ⟨.PROVIDE_INFORMATION, 85/100, [("priority", .s p)]⟩
    | none => none
  else none

/-- `IntentClassifier.classify` -/
def classify (message : String) (current_intent : Option String) : IntentResult :=
  if strIsEmpty message || strIsEmpty (pyStrip message) then ⟨.UNKNOWN, 0, []⟩
  else
    let message_lower := pyStrip (pyLower message)
    let ci := match current_intent with
              | some s => if strIsEmpty s then "NEUTRAL" else s
              | none => "NEUTRAL"
    let info := if ci != "NEUTRAL" then classifyAsInformation message_lower ci else none
    match info with
    | some r => r
    | none =>
      if matchesPatterns message_lower CANCEL_PATTERNS then
        ⟨.CANCEL_OPERATION, 95/100, []⟩
      else if matchesPatterns message_lower LIST_PATTERNS then
        ⟨.LIST_TASKS, 9/10, extractListEntities message_lower⟩
      else if matchesPatterns message_lower ADD_PATTERNS then
        ⟨.ADD_TASK, 9/10, extractAddEntities message message_lower⟩
      else if matchesPatterns message_lower DELETE_PATTERNS then
        ⟨.DELETE_TASK, 9/10, extractDeleteEntities message_lower⟩
      else if matchesPatterns message_lower UPDATE_PATTERNS then
        ⟨.UPDATE_TASK, 9/10, extractUpdateEntities message_lower⟩
      else if matchesPatterns message_lower COMPLETE_PATTERNS then
        ⟨.COMPLETE_TASK, 9/10, extractCompleteEntities message_lower⟩
      else ⟨.UNKNOWN, 3/10, []⟩

/-! ### `DateParser` (src/utils/date_parser.py)

Timestamps are modelled as integers counting days (the only arithmetic the
source performs on datetimes around the validations is
`timedelta(days=365 * MAX_FUTURE_YEARS)`).  The `dateparser` library call
(together with the `_parse_day_with_time` second-chance parser feeding the
same validations) is an external collaborator and is modelled as an
`Option Int` parameter `ext`: `none` when both produce no date, `some d`
for a resolved instant `d`.  `_calculate_confidence` is a pure scoring
heuristic whose output the claims only compare against the fallback
threshold; it is abstracted as the parameter `conf`. -/

structure DateParseResult where
  success : Bool
  parsed_date : Option Int
  confidence : ℚ
  error_message : Option String := none
  original_text : Option String := none
deriving DecidableEq, Repr

def MAX_FUTURE_YEARS : Int := 10

/-- `0.6` (= 3/5) -/
def GPT_FALLBACK_THRESHOLD : ℚ := ⟨3, 5, by norm_num, by norm_num⟩

/-- `datetime.now() + timedelta(days=365 * self.MAX_FUTURE_YEARS)` -/
def maxFutureDate (now : Int) : Int := now + 365 * MAX_FUTURE_YEARS

/-- `DateParser.parse` from the point the external parse result is known:
the empty-input guard, the two hard validations, and the result assembly. -/
def dpParse (date_string : String) (ext : Option Int) (conf : ℚ) (now : Int) :
    DateParseResult :=
  if strIsEmpty date_string || strIsEmpty (pyStrip date_string) then
    ⟨false, none, 0, some "Date string cannot be empty", some date_string⟩
  else
    let ds := pyStrip date_string
    match ext with
    | none =>
      ⟨false, none, 0, some ("Could not parse date: '" ++ ds ++ "'"), some ds⟩
    | some parsed_date =>
      if parsed_date < now then
        ⟨false, none, 0, some "Date cannot be in the past", some ds⟩
      else if maxFutureDate now < parsed_date then
        ⟨false, none, 0, some "Date cannot be more than 10 years in the future", some ds⟩
      else
        ⟨true, some parsed_date, conf, none, some ds⟩

/-- Outcome of one consultation of the external reasoning oracle
(`client.chat.completions.create` plus the JSON decoding around it). -/
inductive OracleOutcome where
  /-- unparsable JSON or any transport-level exception -/
  | malformed
  /-- a well-formed reply with `"success": false` -/
  | refused (reasoning : String)
  /-- a well-formed reply; `ts` is the datetime built from its fields,
  `c` its reported confidence -/
  | parsed (ts : Int) (c : ℚ)
deriving DecidableEq, Repr

/-- `DateParser._parse_with_gpt`. -/
def parseWithGpt (use_gpt_fallback client_available : Bool) (oracle : OracleOutcome)
    (now : Int) (date_string : String) : DateParseResult :=
  if !use_gpt_fallback then
    ⟨false, none, 0, some "GPT fallback disabled", some date_string⟩
  else if !client_available then
    ⟨false, none, 0, some "OpenAI API not available for date parsing", some date_string⟩
  else
    match oracle with
    | .malformed =>
      ⟨false, none, 0, some "GPT date parsing failed: Invalid response format", some date_string⟩
    | .refused reasoning =>
      ⟨false, none, 0, some ("GPT could not parse date: " ++ reasoning), some date_string⟩
    | .parsed ts c =>
      if ts < now then
        ⟨false, none, 0, some "Date cannot be in the past", some date_string⟩
      else if maxFutureDate now < ts then
        ⟨false, none, 0, some "Date cannot be more than 10 years in the future", some date_string⟩
      else
        ⟨true, some ts, c, none, some date_string⟩

/-- `DateParser.parse_with_fallback`. -/
def parseWithFallback (use_gpt_fallback client_available : Bool) (oracle : OracleOutcome)
    (ext : Option Int) (conf : ℚ) (now : Int) (date_string : String)
    (force_gpt : Bool) : DateParseResult :=
  if force_gpt then parseWithGpt use_gpt_fallback client_available oracle now date_string
  else
    let result := dpParse date_string ext conf now
    if result.success && result.confidence ≥ GPT_FALLBACK_THRESHOLD then result
    else if use_gpt_fallback && client_available then
      let gpt_result := parseWithGpt use_gpt_fallback client_available oracle now date_string
      if gpt_result.success then gpt_result else result
    else result

/-! ### `FuzzyMatcher` (src/utils/fuzzy_matcher.py)

`rapidfuzz.fuzz.partial_ratio` is an external collaborator, modelled as a
score function parameter `sc : String → String → ℚ`. -/

structure Task where
  id : Int
  title : String
  description : Option String
deriving DecidableEq, Repr

structure MatchEntry where
  task_id : Int
  title : String
  description : String
  score : ℚ
  matched_field : String
deriving DecidableEq, Repr

structure MatchResult where
  success : Bool
  «matches» : List MatchEntry
  query : Option String := none
  error_message : Option String := none
deriving DecidableEq, Repr

def DEFAULT_SINGLE_MATCH_THRESHOLD : ℚ := 70
def DEFAULT_MULTIPLE_MATCH_THRESHOLD : ℚ := 60
def DEFAULT_MAX_RESULTS : Nat := 5

/-- `FuzzyMatcher._calculate_match_score`. -/
def calculateMatchScore (sc : String → String → ℚ) (query text : String) : ℚ :=
  if strIsEmpty text then 0 else sc query (pyStrip (pyLower text))

/-- One iteration of the scoring loop of `find_matches`. -/
def scoreTask (sc : String → String → ℚ) (query_normalized : String) (task : Task) :
    MatchEntry :=
  let title := task.title
  let description := (task.description).getD ""
  let title_score := calculateMatchScore sc query_normalized title
  let description_score :=
    if !(strIsEmpty description) then calculateMatchScore sc query_normalized description
    else 0
  let best_score := max title_score description_score
  let matched_field := if title_score ≥ description_score then "title" else "description"
  ⟨task.id, title, description, best_score, matched_field⟩

/-- The candidates surviving the `multiple_match_threshold` filter. -/
def survivors (sc : String → String → ℚ) (query_normalized : String) (tasks : List Task)
    (multiple_match_threshold : ℚ) : List MatchEntry :=
  (tasks.map (scoreTask sc query_normalized)).filter
    (fun m => multiple_match_threshold ≤ m.score)

/-- `key=lambda m: (-m["score"], len(m["title"]))` as a boolean order. -/
def matchLe (a b : MatchEntry) : Bool :=
  b.score < a.score || (a.score == b.score && strLen a.title ≤ strLen b.title)

/-- `len(matches) == 1 and matches[0]["score"] < single_match_threshold` -/
def singleWeak (sorted : List MatchEntry) (single_match_threshold : ℚ) : Bool :=
  match sorted with
  | [m] => decide (m.score < single_match_threshold)
  | _ => false

/-- `FuzzyMatcher.find_matches`. -/
def findMatches (sc : String → String → ℚ) (query : String) (tasks : Option (List Task))
    (single_match_threshold : ℚ := DEFAULT_SINGLE_MATCH_THRESHOLD)
    (multiple_match_threshold : ℚ := DEFAULT_MULTIPLE_MATCH_THRESHOLD)
    (max_results : Nat := DEFAULT_MAX_RESULTS) : MatchResult :=
  if strIsEmpty query || strIsEmpty (pyStrip query) then
    ⟨false, [], some query, some "Query cannot be empty"⟩
  else
    match tasks with
    | none => ⟨false, [], some query, some "Task list cannot be None"⟩
    | some tasks =>
      if tasks.isEmpty then ⟨false, [], some query, some "No tasks to search"⟩
      else
        let query_normalized := pyLower (pyStrip query)
        let ms := survivors sc query_normalized tasks multiple_match_threshold
        if ms.isEmpty then
          ⟨false, [], some query, some ("No tasks found matching '" ++ query ++ "'")⟩
        else
          let sorted := ms.mergeSort matchLe
          if singleWeak sorted single_match_threshold then
            ⟨false, [], some query, some ("No confident match found for '" ++ query ++ "'")⟩
          else
            ⟨true, sorted.take max_results, some query, none⟩

/-! ### `ContextManager` (src/ai_agent/context_manager.py)

Workflow state (`state_data`) is an insertion-ordered string-keyed mapping;
its values in the source are strings, ints, bools, `None` and — for the
update workflow's `changes` — a nested string-keyed mapping.  The
conversation persistence service is an external collaborator; a collector's
call to `update_conversation_state` is recorded in the `persisted` flag of
its result.  The date parsing performed at the `deadline` step goes through
`DateParser().parse`, whose external parse is the parameter
`extParse : String → Option Int` (see `dpParse`). -/

inductive SVal where
  | s (v : String) | i (n : Int) | b (v : Bool) | none
  | dict (d : List (String × EVal))
deriving DecidableEq, Repr

abbrev StateData := List (String × SVal)

def sget (st : StateData) (k : String) : Option SVal :=
  (st.find? (fun kv => kv.1 = k)).map (·.2)

def sset (st : StateData) (k : String) (v : SVal) : StateData :=
  if (st.find? (fun kv => kv.1 = k)).isSome then
    st.map (fun kv => if kv.1 = k then (k, v) else kv)
  else st ++ [(k, v)]

def evToSv : EVal → SVal
  | .i n => .i n
  | .s v => .s v
  | .b v => .b v

/-- Python `{**a, **b}` on insertion-ordered dicts. -/
def dmerge (a b : List (String × EVal)) : List (String × EVal) :=
  b.foldl (fun acc kv => eset acc kv.1 kv.2) a

/-- Python truthiness of an optional string argument. -/
def pyTruthyS : Option String → Bool
  | some s => !(strIsEmpty s)
  | none => false

/-- `ADD_TASK_STEPS` -/
def ADD_TASK_STEPS : List String := ["confirm", "priority", "deadline", "description", "create"]
/-- `UPDATE_TASK_STEPS` -/
def UPDATE_TASK_STEPS : List String :=
  ["identify", "show_details", "collect_changes", "confirm", "execute"]
/-- `DELETE_TASK_STEPS` -/
def DELETE_TASK_STEPS : List String := ["identify", "show_details", "confirm", "execute"]
/-- `COMPLETE_TASK_STEPS` -/
def COMPLETE_TASK_STEPS : List String := ["identify", "confirm", "execute"]

/-- `ContextManager.initialize_add_task_state` (the returned `state_data`). -/
def initializeAddTaskState (initial_title : String)
    (initial_priority initial_due_date initial_description : Option String) : StateData :=
  let step :=
    if pyTruthyS initial_priority && pyTruthyS initial_due_date &&
        pyTruthyS initial_description then "create"
    else if pyTruthyS initial_priority && pyTruthyS initial_due_date then "description"
    else if pyTruthyS initial_priority then "deadline"
    else "confirm"
  let state_data : StateData := [("title", .s initial_title), ("step", .s step)]
  let state_data :=
    match initial_priority with
    | some p => if !(strIsEmpty p) then sset state_data "priority" (.s p) else state_data
    | none => state_data
  let state_data :=
    match initial_due_date with
    | some d => if !(strIsEmpty d) then sset state_data "due_date" (.s d) else state_data
    | none => state_data
  match initial_description with
  | some d => if !(strIsEmpty d) then sset state_data "description" (.s d) else state_data
  | none => state_data

/-- `ContextManager.extract_priority_from_text`. -/
def extractPriorityFromText (text : String) : Option String :=
  let text_lower := pyLower text
  let high_keywords := ["high", "urgent", "critical", "important", "asap",
    "high priority", "very important"]
  if high_keywords.any (fun k => strContains text_lower k) then some "high"
  else
    let low_keywords := ["low", "minor", "trivial", "someday", "later",
      "low priority", "not urgent"]
    if low_keywords.any (fun k => strContains text_lower k) then some "low"
    else
      let medium_keywords := ["medium", "normal", "regular", "medium priority"]
      if medium_keywords.any (fun k => strContains text_lower k) then some "medium"
      else none

/-- Result triple of `ContextManager.validate_and_parse_date`. -/
structure DateValidation where
  parsed : Option Int
  error_message : Option String
  needs_clarification : Bool
deriving DecidableEq, Repr

/-- `ContextManager.validate_and_parse_date` (constructs a fresh
`DateParser` and calls `parse`; the parse confidence is unused here). -/
def validateAndParseDate (extParse : String → Option Int) (now : Int)
    (date_string : String) : DateValidation :=
  let result := dpParse date_string (extParse date_string) 0 now
  if result.success then ⟨result.parsed_date, none, false⟩
  else
    let error_msg := (result.error_message).getD "Could not parse the date"
    if strContains (pyLower error_msg) "past" then
      ⟨none, some ("That date appears to be in the past. Could you provide a future date? " ++
        "(e.g., 'tomorrow', 'next week', 'January 20')"), true⟩
    else if strContains (pyLower error_msg) "future" then
      ⟨none, some ("That date is too far in the future (more than 10 years). " ++
        "Please provide a more reasonable deadline."), true⟩
    else
      ⟨none, some ("I couldn't understand '" ++ date_string ++ "' as a date. " ++
        "Try something like 'tomorrow', 'next Friday', 'January 20', or 'in 3 days'."), true⟩

/-- `ContextManager.extract_task_reference`. -/
def extractTaskReference (message : String) : Option (Int ⊕ String) :=
  let ml := pyStrip (pyLower message)
  match reSearchCapture (rcat [.wordB, rstr "task", rspStar, ropt (lch '#')]) rdigits .wordB ml with
  | some d => some (Sum.inl (Int.ofNat (digitsToNat d.toList)))
  | none =>
    if !(strIsEmpty ml) && ml.toList.all Char.isDigit then
      some (Sum.inl (Int.ofNat (digitsToNat ml.toList)))
    else
      match reSearchCapture (rcat [.wordB, rstr "the", rsps]) rword
          (rcat [rsps, rstr "task", .wordB]) ml with
      | some nm => some (Sum.inr nm)
      | none =>
        match reSearchCapture .wordB rword (rcat [rsps, rstr "task", .wordB]) ml with
        | some nm =>
          if nm ∈ ["my", "the", "a", "this", "that"] then none else some (Sum.inr nm)
        | none => none

/-- `["\']?` -/
def rquote : RE := ropt (.cls (fun c => c = '"' || c = '\''))

/-- `(?:\s*,|$)` -/
def rFieldEnd : RE := ralt [rcat [rspStar, lch ','], .eos]

/-- `ContextManager.extract_field_changes`. -/
def extractFieldChanges (extParse : String → Option Int) (now : Int)
    (message : String) (entities : Entities) : List (String × EVal) :=
  let changes : List (String × EVal) := []
  let message_lower := pyLower message
  let changes :=
    match eget entities "priority" with
    | some v => eset changes "priority" v
    | none =>
      match extractPriorityFromText message with
      | some p => eset changes "priority" (.s p)
      | none => changes
  let changes :=
    match reSearchCapture
        (rcat [rwords ["title", "name"], rsps, ralt [rstr "to", rstr "as", lch '='],
          rspStar, rquote])
        rdotPlusL (rcat [rquote, rFieldEnd]) message_lower with
    | some t => eset changes "title" (.s (pyStrip t))
    | none => changes
  let changes :=
    match reSearchCapture
        (rcat [rstr "description", rsps, ralt [rstr "to", rstr "as", lch '='],
          rspStar, rquote])
        rdotPlusL (rcat [rquote, rFieldEnd]) message_lower with
    | some d => eset changes "description" (.s (pyStrip d))
    | none => changes
  let due_match :=
    match reSearchCapture (rcat [rwords ["due", "deadline", "by"], rsps])
        rdotPlusL rFieldEnd message_lower with
    | some raw => some raw
    | none =>
      reSearchCapture (rcat [rstr "due_date", rsps, ralt [rstr "to", rstr "as", lch '='],
        rspStar]) rdotPlusL rFieldEnd message_lower
  let changes :=
    match due_match with
    | some raw0 =>
      let raw_date := pyStrip raw0
      let v := validateAndParseDate extParse now raw_date
      match v.parsed with
      | some d =>
        eset (eset changes "due_date_raw" (.s raw_date)) "due_date_parsed" (.s (toString d))
      | none =>
        eset (eset changes "due_date_raw" (.s raw_date))
          "due_date_error" (.s ((v.error_message).getD ""))
    | none => changes
  if reSearch (rcat [.wordB, rwords ["complete", "done", "finished"], .wordB])
      message_lower then
    eset changes "completed" (.b true)
  else if reSearch (rcat [.wordB, ralt [rstr "incomplete",
      rcat [rstr "not", rsps, rstr "done"], rstr "pending"], .wordB]) message_lower then
    eset changes "completed" (.b false)
  else changes

/-- The result of a `collect_<operation>_information` call: the returned
`(updated_state, next_step)` pair, plus whether the collector reached its
trailing `update_conversation_state` persistence call. -/
structure CollectResult where
  state : StateData
  next_step : SVal
  persisted : Bool
deriving DecidableEq, Repr

/-- `ContextManager.collect_add_task_information`. -/
def collectAddTaskInformation (extParse : String → Option Int) (now : Int)
    (user_message : String) (current_state : StateData) : CollectResult :=
  let current_step := (sget current_state "step").getD (.s "confirm")
  let updated_state := current_state
  let ir := classify user_message (some "ADDING_TASK")
  if ir.intent_type = .CANCEL_OPERATION then
    ⟨updated_state, .s "cancel", false⟩
  else if ir.intent_type ∉ [Intent.PROVIDE_INFORMATION, Intent.ADD_TASK] then
    ⟨updated_state, .s "switch_intent", false⟩
  else
    let entities := ir.extracted_entities
    if current_step = .s "confirm" then
      if etruthy (eget entities "confirmation") || (eget entities "priority").isSome then
        match eget entities "priority" with
        | some p =>
          ⟨sset (sset updated_state "priority" (evToSv p)) "step" (.s "deadline"),
            .s "deadline", true⟩
        | none =>
          ⟨sset updated_state "step" (.s "priority"), .s "priority", true⟩
      else ⟨updated_state, .s "confirm", true⟩
    else if current_step = .s "priority" then
      match eget entities "priority" with
      | some p =>
        ⟨sset (sset updated_state "priority" (evToSv p)) "step" (.s "deadline"),
          .s "deadline", true⟩
      | none =>
        match extractPriorityFromText user_message with
        | some p =>
          ⟨sset (sset updated_state "priority" (.s p)) "step" (.s "deadline"),
            .s "deadline", true⟩
        | none => ⟨updated_state, .s "priority", true⟩
    else if current_step = .s "deadline" then
      let confirmation := eget entities "confirmation"
      let message_lower := pyStrip (pyLower user_message)
      let no_deadline_phrases := ["no deadline", "no due date", "skip", "none", "nope",
        "don't need one", "no thanks", "skip deadline"]
      if confirmation = some (.b false) ||
          no_deadline_phrases.any (fun ph => strContains message_lower ph) then
        ⟨sset (sset updated_state "due_date_raw" .none) "step" (.s "description"),
          .s "description", true⟩
      else
        let v := validateAndParseDate extParse now user_message
        match v.parsed with
        | some d =>
          ⟨sset (sset (sset updated_state "due_date_raw" (.s user_message))
            "due_date_parsed" (.s (toString d))) "step" (.s "description"),
            .s "description", true⟩
        | none =>
          if v.needs_clarification then
            ⟨sset updated_state "date_error" (.s ((v.error_message).getD "")),
              .s "deadline", true⟩
          else
            ⟨sset (sset updated_state "due_date_raw" (.s user_message))
              "step" (.s "description"), .s "description", true⟩
    else if current_step = .s "description" then
      if eget entities "confirmation" = some (.b false) then
        ⟨sset updated_state "step" (.s "create"), .s "create", true⟩
      else
        ⟨sset (sset updated_state "description" (.s user_message)) "step" (.s "create"),
          .s "create", true⟩
    else
      ⟨updated_state, current_step, true⟩

/-- `ContextManager.collect_update_task_information`. -/
def collectUpdateTaskInformation (extParse : String → Option Int) (now : Int)
    (user_message : String) (current_state : StateData) : CollectResult :=
  let current_step := (sget current_state "step").getD (.s "identify")
  let updated_state := current_state
  let ir := classify user_message (some "UPDATING_TASK")
  if ir.intent_type = .CANCEL_OPERATION then
    ⟨updated_state, .s "cancel", false⟩
  else if ir.intent_type ∉ [Intent.PROVIDE_INFORMATION, Intent.UPDATE_TASK] then
    ⟨updated_state, .s "switch_intent", false⟩
  else
    let entities := ir.extracted_entities
    if current_step = .s "identify" then
      match eget entities "task_id" with
      | some v =>
        ⟨sset (sset updated_state "target_task_id" (evToSv v)) "step" (.s "show_details"),
          .s "show_details", true⟩
      | none =>
        match eget entities "task_name" with
        | some v =>
          ⟨sset (sset updated_state "task_name" (evToSv v)) "step" (.s "show_details"),
            .s "show_details", true⟩
        | none =>
          match extractTaskReference user_message with
          | some (Sum.inl n) =>
            ⟨sset (sset updated_state "target_task_id" (.i n)) "step" (.s "show_details"),
              .s "show_details", true⟩
          | some (Sum.inr nm) =>
            ⟨sset (sset updated_state "task_name" (.s nm)) "step" (.s "show_details"),
              .s "show_details", true⟩
          | none => ⟨updated_state, .s "identify", true⟩
    else if current_step = .s "show_details" then
      let changes := extractFieldChanges extParse now user_message entities
      if !changes.isEmpty then
        let old := match sget updated_state "changes" with | some (.dict d) => d | _ => []
        ⟨sset (sset updated_state "changes" (.dict (dmerge old changes)))
          "step" (.s "confirm"), .s "confirm", true⟩
      else
        ⟨sset updated_state "step" (.s "collect_changes"), .s "collect_changes", true⟩
    else if current_step = .s "collect_changes" then
      let changes := extractFieldChanges extParse now user_message entities
      if !changes.isEmpty then
        let old := match sget updated_state "changes" with | some (.dict d) => d | _ => []
        ⟨sset (sset updated_state "changes" (.dict (dmerge old changes)))
          "step" (.s "confirm"), .s "confirm", true⟩
      else
        ⟨updated_state, .s "collect_changes", true⟩
    else if current_step = .s "confirm" then
      match eget entities "confirmation" with
      | some (.b true) => ⟨sset updated_state "step" (.s "execute"), .s "execute", true⟩
      | some (.b false) => ⟨updated_state, .s "cancel", true⟩
      | _ => ⟨updated_state, .s "confirm", true⟩
    else
      ⟨updated_state, current_step, true⟩

/-- `ContextManager.collect_delete_task_information`. -/
def collectDeleteTaskInformation (_extParse : String → Option Int) (_now : Int)
    (user_message : String) (current_state : StateData) : CollectResult :=
  let current_step := (sget current_state "step").getD (.s "identify")
  let updated_state := current_state
  let ir := classify user_message (some "DELETING_TASK")
  if ir.intent_type = .CANCEL_OPERATION then
    ⟨updated_state, .s "cancel", false⟩
  else if ir.intent_type ∉ [Intent.PROVIDE_INFORMATION, Intent.DELETE_TASK] then
    ⟨updated_state, .s "switch_intent", false⟩
  else
    let entities := ir.extracted_entities
    if current_step = .s "identify" then
      match eget entities "task_id" with
      | some v =>
        ⟨sset (sset updated_state "target_task_id" (evToSv v)) "step" (.s "show_details"),
          .s "show_details", true⟩
      | none =>
        match eget entities "task_name" with
        | some v =>
          ⟨sset (sset updated_state "task_name" (evToSv v)) "step" (.s "show_details"),
            .s "show_details", true⟩
        | none =>
          match extractTaskReference user_message with
          | some (Sum.inl n) =>
            ⟨sset (sset updated_state "target_task_id" (.i n)) "step" (.s "show_details"),
              .s "show_details", true⟩
          | some (Sum.inr nm) =>
            ⟨sset (sset updated_state "task_name" (.s nm)) "step" (.s "show_details"),
              .s "show_details", true⟩
          | none => ⟨updated_state, .s "identify", true⟩
    else if current_step = .s "show_details" then
      match eget entities "confirmation" with
      | some (.b true) => ⟨sset updated_state "step" (.s "execute"), .s "execute", true⟩
      | some (.b false) => ⟨updated_state, .s "cancel", true⟩
      | _ => ⟨sset updated_state "step" (.s "confirm"), .s "confirm", true⟩
    else if current_step = .s "confirm" then
      match eget entities "confirmation" with
      | some (.b true) => ⟨sset updated_state "step" (.s "execute"), .s "execute", true⟩
      | some (.b false) => ⟨updated_state, .s "cancel", true⟩
      | _ => ⟨updated_state, .s "confirm", true⟩
    else
      ⟨updated_state, current_step, true⟩

/-- `ContextManager.collect_complete_task_information`. -/
def collectCompleteTaskInformation (_extParse : String → Option Int) (_now : Int)
    (user_message : String) (current_state : StateData) : CollectResult :=
  let current_step := (sget current_state "step").getD (.s "identify")
  let updated_state := current_state
  let ir := classify user_message (some "COMPLETING_TASK")
  if ir.intent_type = .CANCEL_OPERATION then
    ⟨updated_state, .s "cancel", false⟩
  else if ir.intent_type ∉ [Intent.PROVIDE_INFORMATION, Intent.COMPLETE_TASK] then
    ⟨updated_state, .s "switch_intent", false⟩
  else
    let entities := ir.extracted_entities
    if current_step = .s "identify" then
      match eget entities "task_id" with
      | some v =>
        ⟨sset (sset updated_state "target_task_id" (evToSv v)) "step" (.s "confirm"),
          .s "confirm", true⟩
      | none =>
        match eget entities "task_name" with
        | some v =>
          ⟨sset (sset updated_state "task_name" (evToSv v)) "step" (.s "confirm"),
            .s "confirm", true⟩
        | none =>
          match extractTaskReference user_message with
          | some (Sum.inl n) =>
            ⟨sset (sset updated_state "target_task_id" (.i n)) "step" (.s "confirm"),
              .s "confirm", true⟩
          | some (Sum.inr nm) =>
            ⟨sset (sset updated_state "task_name" (.s nm)) "step" (.s "confirm"),
              .s "confirm", true⟩
          | none => ⟨updated_state, .s "identify", true⟩
    else if current_step = .s "confirm" then
      match eget entities "confirmation" with
      | some (.b true) => ⟨sset updated_state "step" (.s "execute"), .s "execute", true⟩
      | some (.b false) => ⟨updated_state, .s "cancel", true⟩
      | _ => ⟨updated_state, .s "confirm", true⟩
    else
      ⟨updated_state, current_step, true⟩

/-! ## Theorems -/

/-- C8: For every message that is empty or consists only of whitespace and
for every phase, `classify` returns intent `UNKNOWN` with confidence 0 and an
empty entity map (and, being a total function, never raises). -/
theorem classify_blank_unknown (message : String) (phase : Option String)
    (h : (strIsEmpty message || strIsEmpty (pyStrip message)) = true) :
    classify message phase = ⟨Intent.UNKNOWN, 0, []⟩ := by
  simp only [classify, h, if_true]

/-- Witness for C8 at the whitespace-only message `"   "` in phase
`ADDING_TASK`. -/
theorem classify_blank_unknown_witness :
    (strIsEmpty "   " || strIsEmpty (pyStrip "   ")) = true ∧
      classify "   " (some "ADDING_TASK") = ⟨Intent.UNKNOWN, 0, []⟩ :=
  ⟨by decide, classify_blank_unknown "   " (some "ADDING_TASK") (by decide)⟩

/-- C9: Priority-keyword extraction is pure substring search: any text whose
lowercasing contains one of the high-priority keywords "urgent", "high",
"critical", "important", "asap" is extracted as priority "high" — even under
negation, `extract_priority_from_text "not urgent" = "high"` — and a high
keyword takes precedence over co-occurring low and medium keywords
(`"urgent but minor"`, `"urgent and normal"` are still "high"). -/
theorem extract_priority_high_substring :
    (∀ (text k : String), k ∈ ["urgent", "high", "critical", "important", "asap"] →
      strContains (pyLower text) k = true →
      extractPriorityFromText text = some "high")
    ∧ extractPriorityFromText "not urgent" = some "high"
    ∧ extractPriorityFromText "urgent but minor" = some "high"
    ∧ extractPriorityFromText "urgent and normal" = some "high" := by
  refine ⟨?_, by decide, by decide, by decide⟩
  intro text k hk hc
  have hany : (["high", "urgent", "critical", "important", "asap",
      "high priority", "very important"].any
        (fun kw => strContains (pyLower text) kw)) = true := by
    rw [List.any_eq_true]
    refine ⟨k, ?_, hc⟩
    simp only [List.mem_cons, List.not_mem_nil, or_false] at hk ⊢
    rcases hk with h | h | h | h | h <;> simp [h]
  simp only [extractPriorityFromText, hany, if_true]

/-- Witness for C9 at `text = "not urgent"`, keyword "urgent". -/
theorem extract_priority_high_substring_witness :
    ("urgent" ∈ ["urgent", "high", "critical", "important", "asap"] ∧
      strContains (pyLower "not urgent") "urgent" = true) ∧
      extractPriorityFromText "not urgent" = some "high" :=
  ⟨⟨by decide, by decide⟩,
    extract_priority_high_substring.1 "not urgent" "urgent" (by decide) (by decide)⟩

/-- C6: Initializing the Add-task workflow state with all of priority, due
date and description pre-supplied (non-empty, hence truthy) alongside the
title yields starting step `create`; supplying none of the optional fields
yields starting step `confirm`. -/
theorem initialize_add_task_steps :
    (∀ (t p d de : String), strIsEmpty p = false → strIsEmpty d = false →
      strIsEmpty de = false →
      sget (initializeAddTaskState t (some p) (some d) (some de)) "step" =
        some (.s "create"))
    ∧ (∀ t : String,
      sget (initializeAddTaskState t none none none) "step" = some (.s "confirm")) := by
  constructor
  · intro t p d de hp hd hde
    simp [initializeAddTaskState, pyTruthyS, hp, hd, hde, sget, sset]
  · intro t
    simp [initializeAddTaskState, pyTruthyS, sget, sset]

/-- Witness for C6 with all three optional fields supplied and with none. -/
theorem initialize_add_task_steps_witness :
    (strIsEmpty "high" = false ∧ strIsEmpty "tomorrow" = false ∧
      strIsEmpty "notes" = false) ∧
    sget (initializeAddTaskState "buy milk" (some "high") (some "tomorrow")
      (some "notes")) "step" = some (.s "create") ∧
    sget (initializeAddTaskState "buy milk" none none none) "step" =
      some (.s "confirm") :=
  ⟨⟨by decide, by decide, by decide⟩,
    initialize_add_task_steps.1 "buy milk" "high" "tomorrow" "notes"
      (by decide) (by decide) (by decide),
    initialize_add_task_steps.2 "buy milk"⟩

/-- C3: Whenever `DateParser.parse` succeeds, the resolved timestamp lies
between `now` and `now` plus 10 years (`365 * 10` days, as the source
computes it); an externally resolved instant strictly earlier than `now` is
rejected with an error message mentioning "past", and one later than
`now + 10` years is rejected with an error message mentioning the 10-year
future limit. -/
theorem dpParse_validates (ds : String) (ext : Option Int) (conf : ℚ) (now : Int) :
    ((dpParse ds ext conf now).success = true →
      ∃ ts, (dpParse ds ext conf now).parsed_date = some ts ∧
        now ≤ ts ∧ ts ≤ maxFutureDate now)
    ∧ (∀ d, ext = some d → d < now →
        (strIsEmpty ds || strIsEmpty (pyStrip ds)) = false →
        (dpParse ds ext conf now).success = false ∧
        strContains (pyLower (((dpParse ds ext conf now).error_message).getD ""))
          "past" = true)
    ∧ (∀ d, ext = some d → maxFutureDate now < d →
        (strIsEmpty ds || strIsEmpty (pyStrip ds)) = false →
        (dpParse ds ext conf now).success = false ∧
        strContains (pyLower (((dpParse ds ext conf now).error_message).getD ""))
          "10 years" = true ∧
        strContains (pyLower (((dpParse ds ext conf now).error_message).getD ""))
          "future" = true) := by
  refine ⟨?_, ?_, ?_⟩
  · intro hs
    by_cases h0 : (strIsEmpty ds || strIsEmpty (pyStrip ds)) = true
    · simp [dpParse, h0] at hs
    · rcases ext with _ | d
      · simp [dpParse, h0] at hs
      · by_cases h1 : d < now
        · simp [dpParse, h0, h1] at hs
        · by_cases h2 : maxFutureDate now < d
          · simp [dpParse, h0, h1, h2] at hs
          · refine ⟨d, ?_, by omega, by omega⟩
            simp [dpParse, h0, h1, h2]
  · intro d hext hlt hne
    subst hext
    have h0 : ¬((strIsEmpty ds || strIsEmpty (pyStrip ds)) = true) := by simp [hne]
    constructor
    · simp [dpParse, h0, hlt]
    · simp only [dpParse, h0, hlt, if_false, if_true, if_neg, if_pos]
      simp [h0, hlt]
      decide
  · intro d hext hgt hne
    subst hext
    have h0 : ¬((strIsEmpty ds || strIsEmpty (pyStrip ds)) = true) := by simp [hne]
    have h1 : ¬(d < now) := by
      unfold maxFutureDate MAX_FUTURE_YEARS at hgt
      omega
    refine ⟨?_, ?_, ?_⟩
    · simp [dpParse, h0, h1, hgt]
    · simp only [dpParse]
      simp [h0, h1, hgt]
      decide
    · simp only [dpParse]
      simp [h0, h1, hgt]
      decide

/-- Witness for C3: "yesterday" resolving to a day before `now` is rejected
as past; "in 15 years" resolving past the limit is rejected as too far in
the future. -/
theorem dpParse_validates_witness :
    (((some (-1) : Option Int) = some (-1)) ∧ (-1 : Int) < 0 ∧
      (strIsEmpty "yesterday" || strIsEmpty (pyStrip "yesterday")) = false ∧
      (dpParse "yesterday" (some (-1)) 0 0).success = false ∧
      strContains (pyLower (((dpParse "yesterday" (some (-1)) 0 0).error_message).getD ""))
        "past" = true)
    ∧ (maxFutureDate 0 < (365 * 15 : Int) ∧
      (dpParse "in 15 years" (some (365 * 15)) 0 0).success = false ∧
      strContains
        (pyLower (((dpParse "in 15 years" (some (365 * 15)) 0 0).error_message).getD ""))
        "10 years" = true) := by
  have h1 := (dpParse_validates "yesterday" (some (-1)) 0 0).2.1 (-1) rfl
    (by decide) (by decide)
  have h2 := (dpParse_validates "in 15 years" (some (365 * 15)) 0 0).2.2 (365 * 15) rfl
    (by decide) (by decide)
  exact ⟨⟨rfl, by decide, by decide, h1.1, h1.2⟩, ⟨by decide, h2.1, h2.2.1⟩⟩

/-- C1 counterexample: the message "cancel the urgent task" matches the
classifier's cancellation patterns, yet in phase `ADDING_TASK` `classify`
returns `PROVIDE_INFORMATION` (the phase-information interpretation — here
the priority keyword "urgent" — runs *before* the cancellation check and
wins), not `CANCEL_OPERATION`.  The same happens in `UPDATING_TASK`. -/
theorem classify_cancel_phrase_loses_to_information :
    matchesPatterns (pyStrip (pyLower "cancel the urgent task")) CANCEL_PATTERNS = true
    ∧ (classify "cancel the urgent task" (some "ADDING_TASK")).intent_type =
        Intent.PROVIDE_INFORMATION
    ∧ (classify "cancel the urgent task" (some "ADDING_TASK")).intent_type ≠
        Intent.CANCEL_OPERATION
    ∧ (classify "cancel the urgent task" (some "UPDATING_TASK")).intent_type =
        Intent.PROVIDE_INFORMATION :=
  ⟨by decide, by decide, by decide, by decide⟩

/-- C1 (amended): each of the five cancellation phrases "never mind",
"cancel", "stop", "abort", "forget it", sent as the message, classifies as
`CANCEL_OPERATION` in every workflow phase (NEUTRAL, ADDING_TASK,
UPDATING_TASK, DELETING_TASK, COMPLETING_TASK); and every
`collect_<operation>_information` call whose classification is
`CANCEL_OPERATION` returns the `cancel` pseudo-step with the accumulated
state unchanged, regardless of the current step and state.  (The original
claim's stronger reading — that *any* message matching a cancellation
pattern wins over the phase-information interpretation — is refuted by
`classify_cancel_phrase_loses_to_information`.) -/
theorem cancel_phrases_win_and_cancel_yields_cancel_step :
    ((["NEUTRAL", "ADDING_TASK", "UPDATING_TASK", "DELETING_TASK",
        "COMPLETING_TASK"].all fun p =>
      (["never mind", "cancel", "stop", "abort", "forget it"].all fun m =>
        (classify m (some p)).intent_type == Intent.CANCEL_OPERATION)) = true)
    ∧ (∀ (ep : String → Option Int) (now : Int) (msg : String) (st : StateData),
        (classify msg (some "ADDING_TASK")).intent_type = Intent.CANCEL_OPERATION →
        collectAddTaskInformation ep now msg st = ⟨st, .s "cancel", false⟩)
    ∧ (∀ (ep : String → Option Int) (now : Int) (msg : String) (st : StateData),
        (classify msg (some "UPDATING_TASK")).intent_type = Intent.CANCEL_OPERATION →
        collectUpdateTaskInformation ep now msg st = ⟨st, .s "cancel", false⟩)
    ∧ (∀ (ep : String → Option Int) (now : Int) (msg : String) (st : StateData),
        (classify msg (some "DELETING_TASK")).intent_type = Intent.CANCEL_OPERATION →
        collectDeleteTaskInformation ep now msg st = ⟨st, .s "cancel", false⟩)
    ∧ (∀ (ep : String → Option Int) (now : Int) (msg : String) (st : StateData),
        (classify msg (some "COMPLETING_TASK")).intent_type = Intent.CANCEL_OPERATION →
        collectCompleteTaskInformation ep now msg st = ⟨st, .s "cancel", false⟩) := by
  refine ⟨by decide, ?_, ?_, ?_, ?_⟩ <;>
    · intro ep now msg st h
      simp [collectAddTaskInformation, collectUpdateTaskInformation,
        collectDeleteTaskInformation, collectCompleteTaskInformation, h]

/-- Witness for C1: the phrase "never mind" during the deadline step of an
add-task workflow classifies as `CANCEL_OPERATION` and the collector returns
the `cancel` pseudo-step, state unchanged. -/
theorem cancel_phrases_win_witness :
    (classify "never mind" (some "ADDING_TASK")).intent_type = Intent.CANCEL_OPERATION
    ∧ collectAddTaskInformation (fun _ => none) 0 "never mind"
        [("title", SVal.s "buy milk"), ("step", SVal.s "deadline")] =
      ⟨[("title", SVal.s "buy milk"), ("step", SVal.s "deadline")], .s "cancel", false⟩ :=
  ⟨by decide,
    cancel_phrases_win_and_cancel_yields_cancel_step.2.1 (fun _ => none) 0 "never mind"
      [("title", SVal.s "buy milk"), ("step", SVal.s "deadline")] (by decide)⟩

/-- C2 counterexample: "delete the urgent task" is a command phrase with the
explicit operation verb "delete" (it matches the classifier's own
`DELETE_PATTERNS`), yet issued during `ADDING_TASK` it is classified as
`PROVIDE_INFORMATION` (priority keyword extraction swallows it), not
`DELETE_TASK`. -/
theorem classify_command_swallowed_as_information :
    matchesPatterns (pyStrip (pyLower "delete the urgent task")) DELETE_PATTERNS = true
    ∧ (classify "delete the urgent task" (some "ADDING_TASK")).intent_type =
        Intent.PROVIDE_INFORMATION
    ∧ (classify "delete the urgent task" (some "ADDING_TASK")).intent_type ≠
        Intent.DELETE_TASK :=
  ⟨by decide, by decide, by decide⟩

/-- C2 (amended): command phrases with an explicit operation verb that do
not contain a priority keyword — "delete task 5", "update task 3",
"show my tasks", "complete task 2" — issued while the conversation is in a
different operation's phase, classify as the named operation's intent (never
`PROVIDE_INFORMATION`); in particular
`classify("delete task 5", ADDING_TASK)` is `DELETE_TASK` with extracted
entity `task_id = 5`.  (For command phrases containing a priority keyword
the original universal claim fails, see
`classify_command_swallowed_as_information`.) -/
theorem classify_commands_switch_intents :
    ((["ADDING_TASK", "UPDATING_TASK", "COMPLETING_TASK"].all fun p =>
      (classify "delete task 5" (some p)).intent_type == Intent.DELETE_TASK) = true)
    ∧ ((["ADDING_TASK", "DELETING_TASK", "COMPLETING_TASK"].all fun p =>
      (classify "update task 3" (some p)).intent_type == Intent.UPDATE_TASK) = true)
    ∧ ((["ADDING_TASK", "UPDATING_TASK", "DELETING_TASK", "COMPLETING_TASK"].all fun p =>
      (classify "show my tasks" (some p)).intent_type == Intent.LIST_TASKS) = true)
    ∧ ((["ADDING_TASK", "UPDATING_TASK", "DELETING_TASK"].all fun p =>
      (classify "complete task 2" (some p)).intent_type == Intent.COMPLETE_TASK) = true)
    ∧ eget (classify "delete task 5" (some "ADDING_TASK")).extracted_entities "task_id" =
        some (.i 5) :=
  ⟨by decide, by decide, by decide, by decide, by decide⟩

/-- C10: in every one of the four `collect_<operation>_information`
workflows, a classification that leads to the `cancel` pseudo-step
(`CANCEL_OPERATION`) or to the `switch_intent` pseudo-step (an intent that
is neither `PROVIDE_INFORMATION` nor the workflow's own operation) returns
the accumulated state exactly as it was passed in, and returns early —
before the persistence update (`update_conversation_state`) is invoked. -/
theorem collect_cancel_switch_frame :
    (∀ (ep : String → Option Int) (now : Int) (msg : String) (st : StateData),
      (((classify msg (some "ADDING_TASK")).intent_type = Intent.CANCEL_OPERATION ∨
        (classify msg (some "ADDING_TASK")).intent_type ∉
          [Intent.PROVIDE_INFORMATION, Intent.ADD_TASK]) →
        (collectAddTaskInformation ep now msg st).state = st ∧
        (collectAddTaskInformation ep now msg st).persisted = false ∧
        ((collectAddTaskInformation ep now msg st).next_step = .s "cancel" ∨
         (collectAddTaskInformation ep now msg st).next_step = .s "switch_intent")))
    ∧ (∀ (ep : String → Option Int) (now : Int) (msg : String) (st : StateData),
      (((classify msg (some "UPDATING_TASK")).intent_type = Intent.CANCEL_OPERATION ∨
        (classify msg (some "UPDATING_TASK")).intent_type ∉
          [Intent.PROVIDE_INFORMATION, Intent.UPDATE_TASK]) →
        (collectUpdateTaskInformation ep now msg st).state = st ∧
        (collectUpdateTaskInformation ep now msg st).persisted = false ∧
        ((collectUpdateTaskInformation ep now msg st).next_step = .s "cancel" ∨
         (collectUpdateTaskInformation ep now msg st).next_step = .s "switch_intent")))
    ∧ (∀ (ep : String → Option Int) (now : Int) (msg : String) (st : StateData),
      (((classify msg (some "DELETING_TASK")).intent_type = Intent.CANCEL_OPERATION ∨
        (classify msg (some "DELETING_TASK")).intent_type ∉
          [Intent.PROVIDE_INFORMATION, Intent.DELETE_TASK]) →
        (collectDeleteTaskInformation ep now msg st).state = st ∧
        (collectDeleteTaskInformation ep now msg st).persisted = false ∧
        ((collectDeleteTaskInformation ep now msg st).next_step = .s "cancel" ∨
         (collectDeleteTaskInformation ep now msg st).next_step = .s "switch_intent")))
    ∧ (∀ (ep : String → Option Int) (now : Int) (msg : String) (st : StateData),
      (((classify msg (some "COMPLETING_TASK")).intent_type = Intent.CANCEL_OPERATION ∨
        (classify msg (some "COMPLETING_TASK")).intent_type ∉
          [Intent.PROVIDE_INFORMATION, Intent.COMPLETE_TASK]) →
        (collectCompleteTaskInformation ep now msg st).state = st ∧
        (collectCompleteTaskInformation ep now msg st).persisted = false ∧
        ((collectCompleteTaskInformation ep now msg st).next_step = .s "cancel" ∨
         (collectCompleteTaskInformation ep now msg st).next_step = .s "switch_intent"))) := by
  refine ⟨?_, ?_, ?_, ?_⟩ <;>
    · intro ep now msg st h
      rcases h with h | h
      · simp [collectAddTaskInformation, collectUpdateTaskInformation,
          collectDeleteTaskInformation, collectCompleteTaskInformation, h]
      · by_cases hc : (classify msg (some "ADDING_TASK")).intent_type =
            Intent.CANCEL_OPERATION <;>
        by_cases hc2 : (classify msg (some "UPDATING_TASK")).intent_type =
            Intent.CANCEL_OPERATION <;>
        by_cases hc3 : (classify msg (some "DELETING_TASK")).intent_type =
            Intent.CANCEL_OPERATION <;>
        by_cases hc4 : (classify msg (some "COMPLETING_TASK")).intent_type =
            Intent.CANCEL_OPERATION <;>
        simp [collectAddTaskInformation, collectUpdateTaskInformation,
          collectDeleteTaskInformation, collectCompleteTaskInformation,
          h, hc, hc2, hc3, hc4]

/-- Witness for C10: "show my tasks" during a delete confirmation is a
`LIST_TASKS` classification (neither information nor delete), and the delete
collector returns `switch_intent` with the state untouched and no
persistence. -/
theorem collect_cancel_switch_frame_witness :
    ((classify "show my tasks" (some "DELETING_TASK")).intent_type =
        Intent.CANCEL_OPERATION ∨
      (classify "show my tasks" (some "DELETING_TASK")).intent_type ∉
        [Intent.PROVIDE_INFORMATION, Intent.DELETE_TASK])
    ∧ (collectDeleteTaskInformation (fun _ => none) 0 "show my tasks"
        [("step", SVal.s "confirm"), ("target_task_id", SVal.i 7)]).state =
      [("step", SVal.s "confirm"), ("target_task_id", SVal.i 7)]
    ∧ (collectDeleteTaskInformation (fun _ => none) 0 "show my tasks"
        [("step", SVal.s "confirm"), ("target_task_id", SVal.i 7)]).persisted = false :=
  ⟨Or.inr (by decide),
    (collect_cancel_switch_frame.2.2.1 (fun _ => none) 0 "show my tasks"
      [("step", SVal.s "confirm"), ("target_task_id", SVal.i 7)] (Or.inr (by decide))).1,
    (collect_cancel_switch_frame.2.2.1 (fun _ => none) 0 "show my tasks"
      [("step", SVal.s "confirm"), ("target_task_id", SVal.i 7)] (Or.inr (by decide))).2.1⟩

/-- On success `dpParse` carries a resolved date. -/
theorem dpParse_success_shape (ds : String) (ext : Option Int) (conf : ℚ) (now : Int)
    (hs : (dpParse ds ext conf now).success = true) :
    (dpParse ds ext conf now).parsed_date.isSome = true := by
  by_cases h0 : (strIsEmpty ds || strIsEmpty (pyStrip ds)) = true
  · simp [dpParse, h0] at hs
  · rcases ext with _ | d
    · simp [dpParse, h0] at hs
    · by_cases h1 : d < now
      · simp [dpParse, h0, h1] at hs
      · by_cases h2 : maxFutureDate now < d
        · simp [dpParse, h0, h1, h2] at hs
        · simp [dpParse, h0, h1, h2]

/-- On a failed parse, `validate_and_parse_date` always reports
"needs clarification" and no date (every failure branch of the source
returns `needs_clarification=True`). -/
theorem validateAndParseDate_fail (ep : String → Option Int) (now : Int) (ds : String)
    (h : (dpParse ds (ep ds) 0 now).success = false) :
    (validateAndParseDate ep now ds).parsed = none ∧
    (validateAndParseDate ep now ds).needs_clarification = true := by
  simp only [validateAndParseDate, h]
  split_ifs <;> simp_all

/-- On a successful parse, `validate_and_parse_date` returns the date with
no error. -/
theorem validateAndParseDate_success (ep : String → Option Int) (now : Int) (ds : String)
    (h : (dpParse ds (ep ds) 0 now).success = true) :
    validateAndParseDate ep now ds =
      ⟨(dpParse ds (ep ds) 0 now).parsed_date, none, false⟩ := by
  simp [validateAndParseDate, h]

/-- C7: at the `deadline` step of the Add-task workflow, under an
information-style classification (`PROVIDE_INFORMATION` or `ADD_TASK`, i.e.
the engine did not cancel or switch): an explicit no-deadline phrase or a
negative confirmation advances directly to the `description` step without
consulting the date parser (the result is the same for every external parse
function); otherwise the date parser is invoked on the message and a parse
failure keeps the engine on the `deadline` step, while a successful parse
advances to `description`. -/
theorem collect_add_deadline_transitions (ep : String → Option Int) (now : Int)
    (msg : String) (st : StateData)
    (hstep : (sget st "step").getD (.s "confirm") = .s "deadline")
    (hinfo : (classify msg (some "ADDING_TASK")).intent_type = Intent.PROVIDE_INFORMATION ∨
      (classify msg (some "ADDING_TASK")).intent_type = Intent.ADD_TASK) :
    (((eget (classify msg (some "ADDING_TASK")).extracted_entities "confirmation" =
          some (.b false) : Bool) ||
        (["no deadline", "no due date", "skip", "none", "nope", "don't need one",
          "no thanks", "skip deadline"].any
          (fun ph => strContains (pyStrip (pyLower msg)) ph))) = true →
      (collectAddTaskInformation ep now msg st).next_step = .s "description" ∧
      ∀ ep' : String → Option Int,
        collectAddTaskInformation ep' now msg st = collectAddTaskInformation ep now msg st)
    ∧ (((eget (classify msg (some "ADDING_TASK")).extracted_entities "confirmation" =
          some (.b false) : Bool) ||
        (["no deadline", "no due date", "skip", "none", "nope", "don't need one",
          "no thanks", "skip deadline"].any
          (fun ph => strContains (pyStrip (pyLower msg)) ph))) = false →
      ((dpParse msg (ep msg) 0 now).success = false →
        (collectAddTaskInformation ep now msg st).next_step = .s "deadline")
      ∧ ((dpParse msg (ep msg) 0 now).success = true →
        (collectAddTaskInformation ep now msg st).next_step = .s "description")) := by
  have hnc : ¬((classify msg (some "ADDING_TASK")).intent_type =
      Intent.CANCEL_OPERATION) := by
    rcases hinfo with h | h <;> simp [h]
  have hmem : ¬((classify msg (some "ADDING_TASK")).intent_type ∉
      [Intent.PROVIDE_INFORMATION, Intent.ADD_TASK]) := by
    rcases hinfo with h | h <;> simp [h]
  constructor
  · intro hnodl
    have key : ∀ ep0 : String → Option Int,
        collectAddTaskInformation ep0 now msg st =
          ⟨sset (sset st "due_date_raw" SVal.none) "step" (SVal.s "description"),
            .s "description", true⟩ := by
      intro ep0
      simp only [collectAddTaskInformation, hstep, hnc, hmem, hnodl]
      simp
    exact ⟨by rw [key ep], fun ep' => by rw [key ep', key ep]⟩
  · intro hnodl
    constructor
    · intro hfail
      have hv := validateAndParseDate_fail ep now msg (by simpa using hfail)
      simp only [collectAddTaskInformation, hstep, hnc, hmem, hnodl]
      simp [hv.1, hv.2]
    · intro hsucc
      have hv := validateAndParseDate_success ep now msg hsucc
      have hsome := dpParse_success_shape msg (ep msg) 0 now hsucc
      rcases hp : (dpParse msg (ep msg) 0 now).parsed_date with _ | d
      · rw [hp] at hsome; simp at hsome
      · simp only [collectAddTaskInformation, hstep, hnc, hmem, hnodl]
        simp [hv, hp]

/-- Witness for C7: at the deadline step, "no deadline" (an explicit
no-deadline phrase classified as provided information) advances to
`description`; the unparseable "tomorrowish" keeps the engine on `deadline`;
a parseable date advances to `description`. -/
theorem collect_add_deadline_transitions_witness :
    ((sget [("title", SVal.s "x"), ("step", SVal.s "deadline")] "step").getD
        (.s "confirm") = .s "deadline")
    ∧ ((classify "no deadline" (some "ADDING_TASK")).intent_type =
        Intent.PROVIDE_INFORMATION ∨
      (classify "no deadline" (some "ADDING_TASK")).intent_type = Intent.ADD_TASK)
    ∧ (collectAddTaskInformation (fun _ => none) 0 "no deadline"
        [("title", SVal.s "x"), ("step", SVal.s "deadline")]).next_step =
      .s "description"
    ∧ (collectAddTaskInformation (fun _ => none) 0 "tomorrowish"
        [("title", SVal.s "x"), ("step", SVal.s "deadline")]).next_step = .s "deadline"
    ∧ (collectAddTaskInformation (fun _ => some 5) 0 "tomorrow"
        [("title", SVal.s "x"), ("step", SVal.s "deadline")]).next_step =
      .s "description" :=
  ⟨by decide, Or.inl (by decide),
    ((collect_add_deadline_transitions (fun _ => none) 0 "no deadline"
      [("title", SVal.s "x"), ("step", SVal.s "deadline")] (by decide)
      (Or.inl (by decide))).1 (by decide)).1,
    ((collect_add_deadline_transitions (fun _ => none) 0 "tomorrowish"
      [("title", SVal.s "x"), ("step", SVal.s "deadline")] (by decide)
      (Or.inl (by decide))).2 (by decide)).1 (by decide),
    ((collect_add_deadline_transitions (fun _ => some 5) 0 "tomorrow"
      [("title", SVal.s "x"), ("step", SVal.s "deadline")] (by decide)
      (Or.inl (by decide))).2 (by decide)).2 (by decide)⟩

/-- A successful oracle parse implies the fallback was enabled and the
client available. -/
theorem parseWithGpt_success_flags (useG client : Bool) (oracle : OracleOutcome)
    (now : Int) (ds : String)
    (h : (parseWithGpt useG client oracle now ds).success = true) :
    useG = true ∧ client = true := by
  cases useG <;> cases client <;> simp [parseWithGpt] at h ⊢

/-- C4: `parse_with_fallback` (with `force_gpt = False`) first uses the
local parse; when the local parse succeeds with confidence at or above the
0.6 threshold the oracle is never consulted (the result is the local one,
for every oracle outcome); when the local parse fails or is low-confidence,
a failing oracle path (disabled, unavailable, malformed reply, refusal, or
validation rejection) yields the original local result unchanged — failure
and error message included — while a successful, validated oracle parse is
returned; and an oracle parse only ever succeeds after passing the same
past-date / ten-year-future validations. -/
theorem parseWithFallback_fallback_policy (useG client : Bool) (oracle : OracleOutcome)
    (ext : Option Int) (conf : ℚ) (now : Int) (ds : String) :
    ((dpParse ds ext conf now).success = true →
      GPT_FALLBACK_THRESHOLD ≤ (dpParse ds ext conf now).confidence →
      ∀ o' : OracleOutcome,
        parseWithFallback useG client o' ext conf now ds false = dpParse ds ext conf now)
    ∧ ((parseWithGpt useG client oracle now ds).success = false →
      parseWithFallback useG client oracle ext conf now ds false = dpParse ds ext conf now)
    ∧ ((parseWithGpt useG client oracle now ds).success = true →
      ¬((dpParse ds ext conf now).success = true ∧
        GPT_FALLBACK_THRESHOLD ≤ (dpParse ds ext conf now).confidence) →
      parseWithFallback useG client oracle ext conf now ds false =
        parseWithGpt useG client oracle now ds)
    ∧ ((parseWithGpt useG client oracle now ds).success = true →
      ∃ ts, (parseWithGpt useG client oracle now ds).parsed_date = some ts ∧
        now ≤ ts ∧ ts ≤ maxFutureDate now) := by
  refine ⟨?_, ?_, ?_, ?_⟩
  · intro hs hc o'
    simp [parseWithFallback, hs, hc]
  · intro hgf
    simp only [parseWithFallback, Bool.false_eq_true, if_false]
    split_ifs <;> simp_all
  · intro hgs hnl
    obtain ⟨hu, hcl⟩ := parseWithGpt_success_flags useG client oracle now ds hgs
    subst hu; subst hcl
    simp only [parseWithFallback, Bool.false_eq_true, if_false]
    rw [if_neg (by simpa [Bool.and_eq_true, decide_eq_true_eq] using hnl)]
    simp [hgs]
  · intro hgs
    cases useG
    · simp [parseWithGpt] at hgs
    · cases client
      · simp [parseWithGpt] at hgs
      · cases oracle with
        | malformed => simp [parseWithGpt] at hgs
        | refused r => simp [parseWithGpt] at hgs
        | parsed ts c =>
          by_cases h1 : ts < now
          · simp [parseWithGpt, h1] at hgs
          · by_cases h2 : maxFutureDate now < ts
            · simp [parseWithGpt, h1, h2] at hgs
            · exact ⟨ts, by simp [parseWithGpt, h1, h2], by omega, by omega⟩

/-- Witness for C4: with the local parse failing on "someday", a valid
oracle reply (day 5, within bounds) is accepted, while a malformed oracle
reply leaves the local failure untouched; a high-confidence local success is
returned without consulting the oracle. -/
theorem parseWithFallback_fallback_policy_witness :
    ((parseWithGpt true true (.parsed 5 1) 0 "someday").success = true ∧
      ¬((dpParse "someday" none 0 0).success = true ∧
        GPT_FALLBACK_THRESHOLD ≤ (dpParse "someday" none 0 0).confidence) ∧
      parseWithFallback true true (.parsed 5 1) none 0 0 "someday" false =
        parseWithGpt true true (.parsed 5 1) 0 "someday")
    ∧ ((parseWithGpt true true .malformed 0 "someday").success = false ∧
      parseWithFallback true true .malformed none 0 0 "someday" false =
        dpParse "someday" none 0 0)
    ∧ ((dpParse "tomorrow" (some 1) 1 0).success = true ∧
      GPT_FALLBACK_THRESHOLD ≤ (dpParse "tomorrow" (some 1) 1 0).confidence ∧
      parseWithFallback true true .malformed (some 1) 1 0 "tomorrow" false =
        dpParse "tomorrow" (some 1) 1 0) :=
  ⟨⟨by decide, by decide,
    (parseWithFallback_fallback_policy true true (.parsed 5 1) none 0 0 "someday").2.2.1
      (by decide) (by decide)⟩,
   ⟨by decide,
    (parseWithFallback_fallback_policy true true .malformed none 0 0 "someday").2.1
      (by decide)⟩,
   ⟨by decide, by decide,
    (parseWithFallback_fallback_policy true true .malformed (some 1) 1 0 "tomorrow").1
      (by decide) (by decide) .malformed⟩⟩

/-- `matchLe` (sort by score descending, ties by shorter title) is total. -/
theorem matchLe_total (a b : MatchEntry) : (matchLe a b || matchLe b a) = true := by
  simp only [matchLe, Bool.or_eq_true, decide_eq_true_eq, Bool.and_eq_true, beq_iff_eq]
  rcases lt_trichotomy a.score b.score with h | h | h
  · exact Or.inr (Or.inl h)
  · rcases Nat.le_total (strLen a.title) (strLen b.title) with hl | hl
    · exact Or.inl (Or.inr ⟨h, hl⟩)
    · exact Or.inr (Or.inr ⟨h.symm, hl⟩)
  · exact Or.inl (Or.inl h)

/-- `matchLe` is transitive. -/
theorem matchLe_trans (a b c : MatchEntry) (h1 : matchLe a b) (h2 : matchLe b c) :
    matchLe a c := by
  simp only [matchLe, Bool.or_eq_true, decide_eq_true_eq, Bool.and_eq_true,
    beq_iff_eq] at h1 h2 ⊢
  rcases h1 with h1 | ⟨h1e, h1l⟩ <;> rcases h2 with h2 | ⟨h2e, h2l⟩
  · exact Or.inl (h2.trans h1)
  · exact Or.inl (h2e ▸ h1)
  · exact Or.inl (h1e ▸ h2)
  · exact Or.inr ⟨h1e.trans h2e, h1l.trans h2l⟩

/-- C5: for a non-empty query and non-empty candidate list, `find_matches`
returns only candidates whose best title/description score reaches
`multiple_match_threshold`, sorted by score descending with ties broken by
shorter title first, truncated to at most `max_results` entries; and when
exactly one candidate survives the filter and its score is below
`single_match_threshold`, the result is a failure with an empty match
list. -/
theorem findMatches_spec (sc : String → String → ℚ) (query : String)
    (tasks : List Task) (single multi : ℚ) (maxr : Nat)
    (hq : (strIsEmpty query || strIsEmpty (pyStrip query)) = false)
    (ht : tasks.isEmpty = false) :
    (∀ m ∈ (findMatches sc query (some tasks) single multi maxr).«matches»,
      multi ≤ m.score)
    ∧ (findMatches sc query (some tasks) single multi maxr).«matches».Pairwise
        (fun a b => b.score < a.score ∨
          (a.score = b.score ∧ strLen a.title ≤ strLen b.title))
    ∧ (findMatches sc query (some tasks) single multi maxr).«matches».length ≤ maxr
    ∧ (∀ m : MatchEntry,
        survivors sc (pyLower (pyStrip query)) tasks multi = [m] → m.score < single →
        (findMatches sc query (some tasks) single multi maxr).success = false ∧
        (findMatches sc query (some tasks) single multi maxr).«matches» = []) := by
  have hunfold : findMatches sc query (some tasks) single multi maxr =
      (if (survivors sc (pyLower (pyStrip query)) tasks multi).isEmpty then
        ⟨false, [], some query, some ("No tasks found matching '" ++ query ++ "'")⟩
      else if singleWeak
          ((survivors sc (pyLower (pyStrip query)) tasks multi).mergeSort matchLe)
          single then
        ⟨false, [], some query, some ("No confident match found for '" ++ query ++ "'")⟩
      else
        ⟨true, ((survivors sc (pyLower (pyStrip query)) tasks multi).mergeSort
          matchLe).take maxr, some query, none⟩) := by
    simp [findMatches, hq, ht]
  by_cases hemp : (survivors sc (pyLower (pyStrip query)) tasks multi).isEmpty = true
  · rw [hunfold, if_pos hemp]
    refine ⟨by simp, by simp, by simp, ?_⟩
    intro m hm _
    rw [hm] at hemp
    simp at hemp
  · by_cases hweak : singleWeak
        ((survivors sc (pyLower (pyStrip query)) tasks multi).mergeSort matchLe)
        single = true
    · rw [hunfold, if_neg (by simpa using hemp), if_pos hweak]
      exact ⟨by simp, by simp, by simp, fun m _ _ => ⟨rfl, rfl⟩⟩
    · rw [hunfold, if_neg (by simpa using hemp), if_neg (by simpa using hweak)]
      refine ⟨?_, ?_, ?_, ?_⟩
      · intro m hm
        have hmem : m ∈ survivors sc (pyLower (pyStrip query)) tasks multi :=
          List.mem_mergeSort.mp (List.mem_of_mem_take hm)
        have := (List.mem_filter.mp hmem).2
        simpa using this
      · have hsorted : ((survivors sc (pyLower (pyStrip query)) tasks
            multi).mergeSort matchLe).Pairwise (fun a b => matchLe a b = true) :=
          List.sorted_mergeSort (fun a b c => matchLe_trans a b c) matchLe_total _
        have htake := hsorted.sublist (List.take_sublist maxr _)
        refine htake.imp ?_
        intro a b hab
        simp only [matchLe, Bool.or_eq_true, decide_eq_true_eq, Bool.and_eq_true,
          beq_iff_eq] at hab
        exact hab
      · simp
      · intro m hsurv hlt
        exfalso
        apply hweak
        have : (survivors sc (pyLower (pyStrip query)) tasks multi).mergeSort
            matchLe = [m] :=
          List.perm_singleton.mp (hsurv ▸ List.mergeSort_perm _ matchLe)
        rw [this]
        simpa [singleWeak] using hlt

/-- Witness for C5: query "milk" over two candidates with a constant-90
scorer at the default thresholds. -/
theorem findMatches_spec_witness :
    ((strIsEmpty "milk" || strIsEmpty (pyStrip "milk")) = false
      ∧ ([⟨1, "Buy milk", none⟩, ⟨2, "Call mom", none⟩] : List Task).isEmpty = false)
    ∧ (∀ m ∈ (findMatches (fun _ _ => 90) "milk"
          (some [⟨1, "Buy milk", none⟩, ⟨2, "Call mom", none⟩]) 70 60 5).«matches»,
        (60 : ℚ) ≤ m.score) :=
  ⟨⟨by decide, by decide⟩,
    (findMatches_spec (fun _ _ => 90) "milk" [⟨1, "Buy milk", none⟩, ⟨2, "Call mom", none⟩]
      70 60 5 (by decide) (by decide)).1⟩

end Todo
